import Mathlib

/-!
Verification of the zlogger structured-logging facade.

The repository holds two near-identical Go source files, `zlogger.go` and an
unnamed second file, each wrapping a structured-log writer.  We embed both
shallowly:

* A context value is a string, an integer, or a value of some other type;
  an ambient context maps string keys to optional values.
* A logger's accumulated Field Set is a list of named fields.  Loggers live
  in a heap (a list of field sets) and are addressed by index, mirroring the
  Go pointer structure: builder operations allocate a fresh cell and never
  write to an existing one.
* Emission operations produce one record (the record's own fields are the
  logger's persisted fields followed by any per-record fields) and an
  outcome: a normal return, or process exit with a status code.
-/

/-- A value stored in the ambient context: a string, an integer, or a value
of any other type (which the extractors reject). -/
inductive CtxVal where
  | str (s : String)
  | int (i : Int)
  | other
deriving DecidableEq

/-- The ambient key-value context consulted by the builder operations. -/
abbrev Ctx : Type := String → Option CtxVal

/-- A named field attached to a logger or a record. -/
inductive LogField where
  | str (name : String) (val : String)
  | int (name : String) (val : Int)
deriving DecidableEq

/-- The ordered collection of fields accumulated on a logger. -/
abbrev FieldSet : Type := List LogField

/-- The heap of underlying writer handles; a Logger is an index into it. -/
abbrev Heap : Type := List FieldSet

/-- The Field Set observable on the logger at index `p` of heap `h`. -/
def fieldSetAt (h : Heap) (p : Nat) : FieldSet := List.getD h p []

/-- Severity levels of the underlying writer. -/
inductive ZLevel where
  | debug | info | warn | error | fatal
deriving DecidableEq

/-- The `slog` level constants consulted by initialization.  `slog.Level`
is an integer; these are its standard values. -/
def slogLevelDebug : Int := -4

def slogLevelInfo : Int := 0

def slogLevelWarn : Int := 4

def slogLevelError : Int := 8

/-- `zerolog.CallerSkipFrameCount`, the writer's base caller-skip depth. -/
def callerSkipFrameCount : Int := 2

/-- Configuration resolved by initialization: the caller-skip depth handed
to the writer and the process-wide minimum severity. -/
structure Config where
  skip : Int
  globalLevel : ZLevel
deriving DecidableEq

/-- One emitted log record. -/
structure Record where
  level : ZLevel
  fields : FieldSet
  message : String
deriving DecidableEq

/-- Outcome of an emission call: a normal return, or process exit. -/
inductive Outcome where
  | returns
  | exits (code : Nat)
deriving DecidableEq

namespace Zlogger

/-- `defaultSkipFrameCount` from `zlogger.go`. -/
def defaultSkipFrameCount : Int := 3

/-- `getValStr` from `zlogger.go`: the string extractor.  Present only when
the stored value is a non-empty string. -/
def getValStr (c : Ctx) (key : String) : String × Bool :=
  match c key with
  | some (CtxVal.str valStr) => if valStr ≠ "" then (valStr, true) else ("", false)
  | _ => ("", false)

/-- `getValInt` from `zlogger.go`: the integer extractor.  Present exactly
when the stored value is an integer. -/
def getValInt (c : Ctx) (key : String) : Int × Bool :=
  match c key with
  | some (CtxVal.int valInt) => (valInt, true)
  | _ => (0, false)

/-- One conditional string-field attachment step:
`if val, ok := getValStr(ctx, key); ok { lc = lc.Str(name, val) }`. -/
def strField (ctx : Ctx) (key name : String) (lc : FieldSet) : FieldSet :=
  if (getValStr ctx key).2 then lc ++ [LogField.str name (getValStr ctx key).1] else lc

/-- One conditional integer-field attachment step:
`if val, ok := getValInt(ctx, key); ok { lc = lc.Int(name, val) }`. -/
def intField (ctx : Ctx) (key name : String) (lc : FieldSet) : FieldSet :=
  if (getValInt ctx key).2 then lc ++ [LogField.int name (getValInt ctx key).1] else lc

/-- The field-context transformation of `ApplyRequest`: the five conditional
attachments applied, in source order, to the parent's copied context. -/
def applyRequestCtx (ctx : Ctx) (lc : FieldSet) : FieldSet :=
  strField ctx "Time" "time"
    (strField ctx "ReqBody" "req_body"
      (strField ctx "ReqHeader" "req_header"
        (strField ctx "RequestURI" "req_uri"
          (strField ctx "Method" "method" lc))))

/-- The field-context transformation of `ApplyResponse`. -/
def applyResponseCtx (ctx : Ctx) (lc : FieldSet) : FieldSet :=
  intField ctx "StatusCode" "status_code"
    (strField ctx "RespBody" "resp_body"
      (strField ctx "RespHeader" "resp_header" lc))

/-- The field-context transformation of `ApplyContext`. -/
def applyContextCtx (ctx : Ctx) (lc : FieldSet) : FieldSet :=
  strField ctx "XReqId" "x_req_id"
    (strField ctx "ReqId" "req_id"
      (strField ctx "DocumentId" "document_id"
        (strField ctx "Tag" "tag" lc)))

/-- `ApplyRequest` from `zlogger.go`: allocates a new logger whose context is
the parent's fields extended by the request fields, leaving the heap's
existing cells intact. -/
def ApplyRequest (h : Heap) (p : Nat) (ctx : Ctx) : Heap × Nat :=
  (h ++ [applyRequestCtx ctx (fieldSetAt h p)], List.length h)

/-- `ApplyResponse` from `zlogger.go`. -/
def ApplyResponse (h : Heap) (p : Nat) (ctx : Ctx) : Heap × Nat :=
  (h ++ [applyResponseCtx ctx (fieldSetAt h p)], List.length h)

/-- `ApplyContext` from `zlogger.go`. -/
def ApplyContext (h : Heap) (p : Nat) (ctx : Ctx) : Heap × Nat :=
  (h ++ [applyContextCtx ctx (fieldSetAt h p)], List.length h)

/-- `Err` from `zlogger.go`: allocates a new logger whose context is the
parent's fields plus an `error` field carrying the error's description. -/
def Err (h : Heap) (p : Nat) (e : String) : Heap × Nat :=
  (h ++ [fieldSetAt h p ++ [LogField.str "error" e]], List.length h)

/-- `setupLogger` from `zlogger.go`: resolves the caller-skip count
(negative or absent input falls back to the default) and maps the `slog`
level onto the writer's global level (unrecognized input falls back to
info).  Returns the resolved pair. -/
def setupLogger (level : Int) (skipFrameCount : Option Int) : Int × ZLevel :=
  let sfc : Int :=
    match skipFrameCount with
    | none => defaultSkipFrameCount
    | some v => if v < 0 then defaultSkipFrameCount else v
  let l : ZLevel :=
    if level = slogLevelError then ZLevel.error
    else if level = slogLevelWarn then ZLevel.warn
    else if level = slogLevelInfo then ZLevel.info
    else if level = slogLevelDebug then ZLevel.debug
    else ZLevel.info
  (sfc, l)

/-- `New` from `zlogger.go`: runs `setupLogger`, then builds the root logger
with an empty Field Set; the writer's caller-skip depth is the zerolog base
plus the resolved count. -/
def New (level : Int) (skipFrameCount : Option Int) : Config × Heap × Nat :=
  let r := setupLogger level skipFrameCount
  ({ skip := callerSkipFrameCount + r.1, globalLevel := r.2 }, [[]], 0)

/-- `Debugf` from `zlogger.go`: emits one debug record carrying the logger's
persisted fields. -/
def Debugf (h : Heap) (p : Nat) (msg : String) : Record × Outcome :=
  ({ level := ZLevel.debug, fields := fieldSetAt h p, message := msg }, Outcome.returns)

/-- `Infof` from `zlogger.go`. -/
def Infof (h : Heap) (p : Nat) (msg : String) : Record × Outcome :=
  ({ level := ZLevel.info, fields := fieldSetAt h p, message := msg }, Outcome.returns)

/-- `Warnf` from `zlogger.go`: the emitted record additionally carries the
per-record field `severity=400`. -/
def Warnf (h : Heap) (p : Nat) (msg : String) : Record × Outcome :=
  ({ level := ZLevel.warn, fields := fieldSetAt h p ++ [LogField.int "severity" 400],
     message := msg }, Outcome.returns)

/-- `Errorf` from `zlogger.go`: the emitted record additionally carries the
per-record field `severity=500`. -/
def Errorf (h : Heap) (p : Nat) (msg : String) : Record × Outcome :=
  ({ level := ZLevel.error, fields := fieldSetAt h p ++ [LogField.int "severity" 500],
     message := msg }, Outcome.returns)

/-- `Fatalf` from `zlogger.go`: emits one fatal record carrying
`severity=800` and terminates the process with exit status 1. -/
def Fatalf (h : Heap) (p : Nat) (msg : String) : Record × Outcome :=
  ({ level := ZLevel.fatal, fields := fieldSetAt h p ++ [LogField.int "severity" 800],
     message := msg }, Outcome.exits 1)

end Zlogger

namespace Part0

/-- `defaultSkipFrameCount` from the unnamed source file. -/
def defaultSkipFrameCount : Int := 3

/-- `getValStr` from the unnamed source file. -/
def getValStr (c : Ctx) (key : String) : String × Bool :=
  match c key with
  | some (CtxVal.str valStr) => if valStr ≠ "" then (valStr, true) else ("", false)
  | _ => ("", false)

/-- `getValInt` from the unnamed source file. -/
def getValInt (c : Ctx) (key : String) : Int × Bool :=
  match c key with
  | some (CtxVal.int valInt) => (valInt, true)
  | _ => (0, false)

/-- One conditional string-field attachment step of the unnamed file. -/
def strField (ctx : Ctx) (key name : String) (lc : FieldSet) : FieldSet :=
  if (getValStr ctx key).2 then lc ++ [LogField.str name (getValStr ctx key).1] else lc

/-- One conditional integer-field attachment step of the unnamed file. -/
def intField (ctx : Ctx) (key name : String) (lc : FieldSet) : FieldSet :=
  if (getValInt ctx key).2 then lc ++ [LogField.int name (getValInt ctx key).1] else lc

/-- The field-context transformation of the unnamed file's `ApplyRequest`. -/
def applyRequestCtx (ctx : Ctx) (lc : FieldSet) : FieldSet :=
  strField ctx "Time" "time"
    (strField ctx "ReqBody" "req_body"
      (strField ctx "ReqHeader" "req_header"
        (strField ctx "RequestURI" "req_uri"
          (strField ctx "Method" "method" lc))))

/-- The field-context transformation of the unnamed file's `ApplyResponse`. -/
def applyResponseCtx (ctx : Ctx) (lc : FieldSet) : FieldSet :=
  intField ctx "StatusCode" "status_code"
    (strField ctx "RespBody" "resp_body"
      (strField ctx "RespHeader" "resp_header" lc))

/-- The field-context transformation of the unnamed file's `ApplyContext`. -/
def applyContextCtx (ctx : Ctx) (lc : FieldSet) : FieldSet :=
  strField ctx "XReqId" "x_req_id"
    (strField ctx "ReqId" "req_id"
      (strField ctx "DocumentId" "document_id"
        (strField ctx "Tag" "tag" lc)))

/-- `ApplyRequest` from the unnamed source file. -/
def ApplyRequest (h : Heap) (p : Nat) (ctx : Ctx) : Heap × Nat :=
  (h ++ [applyRequestCtx ctx (fieldSetAt h p)], List.length h)

/-- `ApplyResponse` from the unnamed source file. -/
def ApplyResponse (h : Heap) (p : Nat) (ctx : Ctx) : Heap × Nat :=
  (h ++ [applyResponseCtx ctx (fieldSetAt h p)], List.length h)

/-- `ApplyContext` from the unnamed source file. -/
def ApplyContext (h : Heap) (p : Nat) (ctx : Ctx) : Heap × Nat :=
  (h ++ [applyContextCtx ctx (fieldSetAt h p)], List.length h)

/-- `Err` from the unnamed source file. -/
def Err (h : Heap) (p : Nat) (e : String) : Heap × Nat :=
  (h ++ [fieldSetAt h p ++ [LogField.str "error" e]], List.length h)

/-- `New` from the unnamed source file: the skip-count resolution and the
level switch are written inline (this file has no separate `setupLogger`),
then the root logger is built with an empty Field Set. -/
def New (level : Int) (skipFrameCount : Option Int) : Config × Heap × Nat :=
  let sfc : Int :=
    match skipFrameCount with
    | none => defaultSkipFrameCount
    | some v => if v < 0 then defaultSkipFrameCount else v
  let l : ZLevel :=
    if level = slogLevelError then ZLevel.error
    else if level = slogLevelWarn then ZLevel.warn
    else if level = slogLevelInfo then ZLevel.info
    else if level = slogLevelDebug then ZLevel.debug
    else ZLevel.info
  ({ skip := callerSkipFrameCount + sfc, globalLevel := l }, [[]], 0)

/-- `Debugf` from the unnamed source file. -/
def Debugf (h : Heap) (p : Nat) (msg : String) : Record × Outcome :=
  ({ level := ZLevel.debug, fields := fieldSetAt h p, message := msg }, Outcome.returns)

/-- `Infof` from the unnamed source file. -/
def Infof (h : Heap) (p : Nat) (msg : String) : Record × Outcome :=
  ({ level := ZLevel.info, fields := fieldSetAt h p, message := msg }, Outcome.returns)

/-- `Warnf` from the unnamed source file. -/
def Warnf (h : Heap) (p : Nat) (msg : String) : Record × Outcome :=
  ({ level := ZLevel.warn, fields := fieldSetAt h p ++ [LogField.int "severity" 400],
     message := msg }, Outcome.returns)

/-- `Errorf` from the unnamed source file. -/
def Errorf (h : Heap) (p : Nat) (msg : String) : Record × Outcome :=
  ({ level := ZLevel.error, fields := fieldSetAt h p ++ [LogField.int "severity" 500],
     message := msg }, Outcome.returns)

/-- `Fatalf` from the unnamed source file. -/
def Fatalf (h : Heap) (p : Nat) (msg : String) : Record × Outcome :=
  ({ level := ZLevel.fatal, fields := fieldSetAt h p ++ [LogField.int "severity" 800],
     message := msg }, Outcome.exits 1)

end Part0

/-! ### Helper lemmas about the heap and the field-context transformations -/

/-- Allocating a fresh cell leaves every existing cell's field set intact. -/
theorem fieldSetAt_append_lt (h : Heap) (x : FieldSet) (p : Nat) (hp : p < List.length h) :
    fieldSetAt (h ++ [x]) p = fieldSetAt h p := by
  unfold fieldSetAt
  exact List.getD_append h [x] [] p hp

/-- Reading the freshly allocated cell yields its contents. -/
theorem fieldSetAt_append_len (h : Heap) (x : FieldSet) :
    fieldSetAt (h ++ [x]) (List.length h) = x := by
  unfold fieldSetAt
  rw [List.getD_append_right h [x] [] (List.length h) (Nat.le_refl _)]
  simp

/-- A single conditional string attachment only appends to its argument. -/
theorem Zlogger.strField_append (ctx : Ctx) (key name : String) (lc : FieldSet) :
    Zlogger.strField ctx key name lc = lc ++ Zlogger.strField ctx key name [] := by
  unfold Zlogger.strField
  cases hb : (Zlogger.getValStr ctx key).2 <;> simp [hb]

/-- A single conditional integer attachment only appends to its argument. -/
theorem Zlogger.intField_append (ctx : Ctx) (key name : String) (lc : FieldSet) :
    Zlogger.intField ctx key name lc = lc ++ Zlogger.intField ctx key name [] := by
  unfold Zlogger.intField
  cases hb : (Zlogger.getValInt ctx key).2 <;> simp [hb]

/-- `applyRequestCtx` only appends its attached fields to its argument. -/
theorem Zlogger.applyRequestCtx_append (ctx : Ctx) (lc : FieldSet) :
    Zlogger.applyRequestCtx ctx lc = lc ++ Zlogger.applyRequestCtx ctx [] := by
  unfold Zlogger.applyRequestCtx
  rw [Zlogger.strField_append ctx "Method" "method" lc,
    Zlogger.strField_append ctx "RequestURI" "req_uri"
      (lc ++ Zlogger.strField ctx "Method" "method" []),
    Zlogger.strField_append ctx "RequestURI" "req_uri"
      (Zlogger.strField ctx "Method" "method" []),
    Zlogger.strField_append ctx "ReqHeader" "req_header"
      (lc ++ Zlogger.strField ctx "Method" "method" [] ++
        Zlogger.strField ctx "RequestURI" "req_uri" []),
    Zlogger.strField_append ctx "ReqHeader" "req_header"
      (Zlogger.strField ctx "Method" "method" [] ++
        Zlogger.strField ctx "RequestURI" "req_uri" [])]
  rw [Zlogger.strField_append ctx "ReqBody" "req_body",
    Zlogger.strField_append ctx "ReqBody" "req_body"
      (Zlogger.strField ctx "Method" "method" [] ++
        Zlogger.strField ctx "RequestURI" "req_uri" [] ++
        Zlogger.strField ctx "ReqHeader" "req_header" [])]
  rw [Zlogger.strField_append ctx "Time" "time",
    Zlogger.strField_append ctx "Time" "time"
      (Zlogger.strField ctx "Method" "method" [] ++
        Zlogger.strField ctx "RequestURI" "req_uri" [] ++
        Zlogger.strField ctx "ReqHeader" "req_header" [] ++
        Zlogger.strField ctx "ReqBody" "req_body" [])]
  simp [List.append_assoc]

/-- `applyResponseCtx` only appends its attached fields to its argument. -/
theorem Zlogger.applyResponseCtx_append (ctx : Ctx) (lc : FieldSet) :
    Zlogger.applyResponseCtx ctx lc = lc ++ Zlogger.applyResponseCtx ctx [] := by
  unfold Zlogger.applyResponseCtx
  rw [Zlogger.strField_append ctx "RespHeader" "resp_header" lc,
    Zlogger.strField_append ctx "RespBody" "resp_body"
      (lc ++ Zlogger.strField ctx "RespHeader" "resp_header" []),
    Zlogger.strField_append ctx "RespBody" "resp_body"
      (Zlogger.strField ctx "RespHeader" "resp_header" []),
    Zlogger.intField_append ctx "StatusCode" "status_code",
    Zlogger.intField_append ctx "StatusCode" "status_code"
      (Zlogger.strField ctx "RespHeader" "resp_header" [] ++
        Zlogger.strField ctx "RespBody" "resp_body" [])]
  simp [List.append_assoc]

/-! ### Claim theorems -/

/-- Claim C1: calling `ApplyRequest`, `ApplyResponse`, `ApplyContext`, or
`Err` on a valid logger allocates a fresh writer handle and leaves the Field
Set observable on the original logger unchanged. -/
theorem builders_preserve_original_fieldset (h : Heap) (p : Nat) (ctx : Ctx) (e : String)
    (hp : p < List.length h) :
    fieldSetAt (Zlogger.ApplyRequest h p ctx).1 p = fieldSetAt h p ∧
    fieldSetAt (Zlogger.ApplyResponse h p ctx).1 p = fieldSetAt h p ∧
    fieldSetAt (Zlogger.ApplyContext h p ctx).1 p = fieldSetAt h p ∧
    fieldSetAt (Zlogger.Err h p e).1 p = fieldSetAt h p :=
  ⟨fieldSetAt_append_lt h _ p hp, fieldSetAt_append_lt h _ p hp,
   fieldSetAt_append_lt h _ p hp, fieldSetAt_append_lt h _ p hp⟩

/-- Witness for claim C1: the hypotheses hold and the conclusion evaluates
at the singleton heap, pointer 0, the empty context and a concrete error. -/
theorem builders_preserve_original_fieldset_witness :
    0 < List.length ([[]] : Heap) ∧
    (fieldSetAt (Zlogger.ApplyRequest [[]] 0 (fun _ => none)).1 0 = fieldSetAt [[]] 0 ∧
     fieldSetAt (Zlogger.ApplyResponse [[]] 0 (fun _ => none)).1 0 = fieldSetAt [[]] 0 ∧
     fieldSetAt (Zlogger.ApplyContext [[]] 0 (fun _ => none)).1 0 = fieldSetAt [[]] 0 ∧
     fieldSetAt (Zlogger.Err [[]] 0 "boom").1 0 = fieldSetAt [[]] 0) :=
  ⟨by decide, builders_preserve_original_fieldset [[]] 0 (fun _ => none) "boom" (by decide)⟩

/-- Claim C2: starting from the root logger built by `New`, applying
`ApplyRequest` then `ApplyResponse` with the same ambient context yields a
logger whose Field Set is exactly the fields the request step attaches
followed by the fields the response step attaches — the union of both, with
no field from either step lost. -/
theorem root_request_response_union (lv : Int) (s : Option Int) (ctx : Ctx) :
    fieldSetAt
        (Zlogger.ApplyResponse
          (Zlogger.ApplyRequest (Zlogger.New lv s).2.1 (Zlogger.New lv s).2.2 ctx).1
          (Zlogger.ApplyRequest (Zlogger.New lv s).2.1 (Zlogger.New lv s).2.2 ctx).2 ctx).1
        (Zlogger.ApplyResponse
          (Zlogger.ApplyRequest (Zlogger.New lv s).2.1 (Zlogger.New lv s).2.2 ctx).1
          (Zlogger.ApplyRequest (Zlogger.New lv s).2.1 (Zlogger.New lv s).2.2 ctx).2 ctx).2
      = Zlogger.applyRequestCtx ctx [] ++ Zlogger.applyResponseCtx ctx [] ∧
    ∀ f : LogField,
      f ∈ fieldSetAt
        (Zlogger.ApplyResponse
          (Zlogger.ApplyRequest (Zlogger.New lv s).2.1 (Zlogger.New lv s).2.2 ctx).1
          (Zlogger.ApplyRequest (Zlogger.New lv s).2.1 (Zlogger.New lv s).2.2 ctx).2 ctx).1
        (Zlogger.ApplyResponse
          (Zlogger.ApplyRequest (Zlogger.New lv s).2.1 (Zlogger.New lv s).2.2 ctx).1
          (Zlogger.ApplyRequest (Zlogger.New lv s).2.1 (Zlogger.New lv s).2.2 ctx).2 ctx).2 ↔
      f ∈ Zlogger.applyRequestCtx ctx [] ∨ f ∈ Zlogger.applyResponseCtx ctx [] := by
  have key :
      fieldSetAt
          (Zlogger.ApplyResponse
            (Zlogger.ApplyRequest (Zlogger.New lv s).2.1 (Zlogger.New lv s).2.2 ctx).1
            (Zlogger.ApplyRequest (Zlogger.New lv s).2.1 (Zlogger.New lv s).2.2 ctx).2 ctx).1
          (Zlogger.ApplyResponse
            (Zlogger.ApplyRequest (Zlogger.New lv s).2.1 (Zlogger.New lv s).2.2 ctx).1
            (Zlogger.ApplyRequest (Zlogger.New lv s).2.1 (Zlogger.New lv s).2.2 ctx).2 ctx).2
        = Zlogger.applyRequestCtx ctx [] ++ Zlogger.applyResponseCtx ctx [] :=
    Zlogger.applyResponseCtx_append ctx (Zlogger.applyRequestCtx ctx [])
  refine ⟨key, fun f => ?_⟩
  rw [key]
  exact List.mem_append

/-- Claim C3: the string extractor reports presence exactly when the value
stored under the key is a string and that string is non-empty; a missing
key, an empty string, or a non-string value all yield not-present, and the
extractor is total (no error path). -/
theorem getValStr_present_iff (c : Ctx) (k : String) :
    (Zlogger.getValStr c k).2 = true ↔ ∃ s, c k = some (CtxVal.str s) ∧ s ≠ "" := by
  unfold Zlogger.getValStr
  cases hv : c k with
  | none => simp
  | some v =>
    cases v with
    | str s => by_cases hs : s = "" <;> simp [hs]
    | int i => simp
    | other => simp

/-- Claim C4: the integer extractor reports presence exactly when the value
stored under the key is an integer (zero included); a missing key or a
value of any other type yields not-present, and the extractor is total. -/
theorem getValInt_present_iff (c : Ctx) (k : String) :
    (Zlogger.getValInt c k).2 = true ↔ ∃ v, c k = some (CtxVal.int v) := by
  unfold Zlogger.getValInt
  cases hv : c k with
  | none => simp
  | some v =>
    cases v with
    | str s => simp
    | int i => simp
    | other => simp

/-- Claim C9: `Err` returns a new logger whose Field Set is the parent's
plus an `error` field carrying the error's description; its result type
contains no record, matching the fact that `Err` emits nothing. -/
theorem err_extends_with_error_field (h : Heap) (p : Nat) (e : String) :
    fieldSetAt (Zlogger.Err h p e).1 (Zlogger.Err h p e).2
      = fieldSetAt h p ++ [LogField.str "error" e] :=
  fieldSetAt_append_len h _

/-- Claim C5: initialization resolves a present non-negative skip-frame
input to exactly that value, and resolves a negative or absent input to the
default 3. -/
theorem setupLogger_skip_resolution (lv : Int) :
    (∀ n : Int, 0 ≤ n → (Zlogger.setupLogger lv (some n)).1 = n) ∧
    (∀ n : Int, n < 0 → (Zlogger.setupLogger lv (some n)).1 = 3) ∧
    (Zlogger.setupLogger lv none).1 = 3 := by
  refine ⟨?_, ?_, rfl⟩
  · intro n hn
    show (if n < 0 then Zlogger.defaultSkipFrameCount else n) = n
    rw [if_neg (by omega)]
  · intro n hn
    show (if n < 0 then Zlogger.defaultSkipFrameCount else n) = 3
    rw [if_pos hn]
    rfl

/-- Witness for claim C5: the two hypotheses are discharged at the concrete
inputs 7 and -2. -/
theorem setupLogger_skip_resolution_witness :
    ((0 : Int) ≤ 7 ∧ (Zlogger.setupLogger 0 (some 7)).1 = 7) ∧
    ((-2 : Int) < 0 ∧ (Zlogger.setupLogger 0 (some (-2))).1 = 3) :=
  ⟨⟨by decide, (setupLogger_skip_resolution 0).1 7 (by decide)⟩,
   ⟨by decide, (setupLogger_skip_resolution 0).2.1 (-2) (by decide)⟩⟩

/-- Claim C6: initialization maps each of the four recognized `slog` levels
to the corresponding writer threshold, and maps every other level input to
info. -/
theorem setupLogger_level_mapping (s : Option Int) :
    (Zlogger.setupLogger slogLevelDebug s).2 = ZLevel.debug ∧
    (Zlogger.setupLogger slogLevelInfo s).2 = ZLevel.info ∧
    (Zlogger.setupLogger slogLevelWarn s).2 = ZLevel.warn ∧
    (Zlogger.setupLogger slogLevelError s).2 = ZLevel.error ∧
    ∀ lv : Int, lv ≠ slogLevelDebug → lv ≠ slogLevelInfo → lv ≠ slogLevelWarn →
      lv ≠ slogLevelError → (Zlogger.setupLogger lv s).2 = ZLevel.info := by
  refine ⟨rfl, rfl, rfl, rfl, ?_⟩
  intro lv h1 h2 h3 h4
  show (if lv = slogLevelError then ZLevel.error
    else if lv = slogLevelWarn then ZLevel.warn
    else if lv = slogLevelInfo then ZLevel.info
    else if lv = slogLevelDebug then ZLevel.debug
    else ZLevel.info) = ZLevel.info
  rw [if_neg h4, if_neg h3, if_neg h2, if_neg h1]

/-- Witness for claim C6: the unrecognized-level hypotheses are discharged
at the concrete level 5. -/
theorem setupLogger_level_mapping_witness :
    (Zlogger.setupLogger slogLevelDebug none).2 = ZLevel.debug ∧
    (Zlogger.setupLogger 5 none).2 = ZLevel.info :=
  ⟨(setupLogger_level_mapping none).1,
   (setupLogger_level_mapping none).2.2.2.2 5 (by decide) (by decide) (by decide) (by decide)⟩

/-- Claim C7: the record emitted by `Warnf` carries the per-record field
`severity=400` and the one emitted by `Errorf` carries `severity=500`;
neither call touches the heap (their types return no heap), so the logger's
persisted Field Set is unchanged and a subsequent `Debugf` or `Infof` from
the same logger carries exactly the persisted fields, with no severity
field contributed by the earlier calls. -/
theorem warnf_errorf_severity_per_record (h : Heap) (p : Nat) (m m' : String) :
    (Zlogger.Warnf h p m).1.fields = fieldSetAt h p ++ [LogField.int "severity" 400] ∧
    (Zlogger.Errorf h p m).1.fields = fieldSetAt h p ++ [LogField.int "severity" 500] ∧
    (Zlogger.Debugf h p m').1.fields = fieldSetAt h p ∧
    (Zlogger.Infof h p m').1.fields = fieldSetAt h p :=
  ⟨rfl, rfl, rfl, rfl⟩

/-- Claim C8: `Fatalf` emits exactly one record, at fatal level and with the
field `severity=800` appended, and its outcome is process exit with status
1 — never a normal return. -/
theorem fatalf_exits_with_severity (h : Heap) (p : Nat) (m : String) :
    (Zlogger.Fatalf h p m).1.level = ZLevel.fatal ∧
    (Zlogger.Fatalf h p m).1.fields = fieldSetAt h p ++ [LogField.int "severity" 800] ∧
    (Zlogger.Fatalf h p m).2 = Outcome.exits 1 :=
  ⟨rfl, rfl, rfl⟩

/-- Claim C10: the logger of `zlogger.go` and the logger of the unnamed
source file are behaviorally equivalent on their shared operations: `New`
resolves the same configuration and root state, and the extractors, builder
operations and emission operations agree on all inputs. -/
theorem two_files_equivalent :
    (∀ lv s, Part0.New lv s = Zlogger.New lv s) ∧
    (∀ c k, Part0.getValStr c k = Zlogger.getValStr c k) ∧
    (∀ c k, Part0.getValInt c k = Zlogger.getValInt c k) ∧
    (∀ h p c, Part0.ApplyRequest h p c = Zlogger.ApplyRequest h p c) ∧
    (∀ h p c, Part0.ApplyResponse h p c = Zlogger.ApplyResponse h p c) ∧
    (∀ h p c, Part0.ApplyContext h p c = Zlogger.ApplyContext h p c) ∧
    (∀ h p e, Part0.Err h p e = Zlogger.Err h p e) ∧
    (∀ h p m, Part0.Debugf h p m = Zlogger.Debugf h p m) ∧
    (∀ h p m, Part0.Infof h p m = Zlogger.Infof h p m) ∧
    (∀ h p m, Part0.Warnf h p m = Zlogger.Warnf h p m) ∧
    (∀ h p m, Part0.Errorf h p m = Zlogger.Errorf h p m) ∧
    (∀ h p m, Part0.Fatalf h p m = Zlogger.Fatalf h p m) := by
  refine ⟨?_, ?_, ?_, ?_, ?_, ?_, ?_, ?_, ?_, ?_, ?_, ?_⟩ <;> intros <;> rfl
